import Mathlib

/-!
# Verification of the Gra-2 crop-recommendation engine

A shallow embedding, in Lean 4, of the matching/scoring core of the Gra-2
repository.  Two implementation variants of the same interface coexist in the
source and are embedded side by side:

* namespace `Ladder` — the fallback-ladder variant (the `DataDrivenPredictor`
  class backed by the single `AgriculturalRecord` dataset);
* namespace `Strict` — the strict-rejection variant
  (`src/services/dataService.ts`, backed by the `CropData` /
  `FertilizerData` / `RainfallData` datasets).

JavaScript numbers are modelled by `ℚ` wherever the loaded data is finite
(the record-store claims quantify over already-loaded stores); the parsing
layer, whose whole point is that `parseFloat` can yield `NaN` or `Infinity`,
uses the dedicated type `JsNum`.  `Math.round` is `jsRound`, `Math.abs` is
`|·|`, `String.prototype.includes` is `jsIncludes`, `toLowerCase` is
`String.toLower`.  JavaScript `Array.prototype.sort` (stable in all modern
engines) is modelled by the stable insertion sort `sortDescBy`, `Map` /
`Set` / object-key insertion order by `insertGroup` / `firstDedup`.
Functions that can `throw` return `Except JsError _`; total Lean functions
model JS functions that cannot throw.
-/

namespace Gra2

/-- `Math.round` in JavaScript: round half away from zero is
`⌊x + 1/2⌋` for the (nonnegative or half-free) values that arise here;
JS rounds half towards +∞, which is exactly `⌊x + 1/2⌋` for every real. -/
def jsRound (q : ℚ) : ℤ := ⌊q + 1/2⌋

/-- `needle` occurs contiguously inside `haystack`. -/
def infixCheck (needle : List Char) (haystack : List Char) : Bool :=
  match haystack with
  | [] => needle.isEmpty
  | _ :: rest => needle.isPrefixOf haystack || infixCheck needle rest

/-- `String.prototype.includes`: `jsIncludes s sub` is `s.includes(sub)`,
i.e. `sub` occurs contiguously inside `s`. -/
def jsIncludes (s sub : String) : Bool := infixCheck sub.toList s.toList

/-- The `records.reduce((sum, r) => sum + f r, 0) / records.length` idiom
used throughout the source for averaging. -/
def listAvg (l : List ℚ) : ℚ := l.sum / l.length

/-- First-occurrence deduplication: the order in which a JavaScript `Map`
or `Set` (or plain object keys) enumerates its keys — insertion order,
keeping the first occurrence of each duplicate. -/
def firstDedup : List String → List String
  | [] => []
  | a :: l => a :: firstDedup (l.filter (fun b => b ≠ a))
termination_by l => l.length
decreasing_by
  simpa using Nat.lt_succ_of_le (List.length_filter_le _ _)

/-- One step of a stable insertion sort, descending on the key `f`:
an element is inserted after every already-placed element with a
greater-or-equal key, which is how a stable `Array.prototype.sort` with
comparator `(a, b) => f b - f a` orders ties. -/
def insertDescBy {α : Type} (f : α → ℚ) (a : α) : List α → List α
  | [] => [a]
  | b :: l => if f b ≤ f a then a :: b :: l else b :: insertDescBy f a l

/-- Stable sort, descending on the key `f`: the model of the source's
`.sort((a, b) => b.key - a.key)` calls. -/
def sortDescBy {α : Type} (f : α → ℚ) : List α → List α
  | [] => []
  | a :: l => insertDescBy f a (sortDescBy f l)

/-! ## Data model (`src/types.ts` and the two services' record types) -/

/-- `AgriculturalRecord` of the fallback-ladder service (24 CSV columns). -/
structure AgriculturalRecord where
  state : String
  district : String
  village : String
  latitude : ℚ
  longitude : ℚ
  year : ℤ
  season : String
  crop : String
  area_hectares : ℚ
  soil_type : String
  soil_ph : ℚ
  soil_moisture_percent : ℚ
  annual_rainfall_mm : ℚ
  avg_temperature_c : ℚ
  climate_risk : String
  drought_occurrence : String
  flood_occurrence : String
  irrigation_type : String
  input_cost_inr : ℚ
  yield_kg_per_hectare : ℚ
  market_price_inr_per_kg : ℚ
  roi_percent : ℚ
  success_rating : ℚ
  farmer_feedback : String
deriving DecidableEq, Repr

/-- `VillageData` (`src/types.ts`): the query profile. -/
structure VillageData where
  village : String
  latitude : ℚ
  longitude : ℚ
  soil_type : String
  annual_rainfall : ℚ
  crops_current : List String
  groundwater_depth : ℚ
  flood_history : String
deriving DecidableEq, Repr

/-- `CropRecommendation` (`src/types.ts`): the query output. -/
structure CropRecommendation where
  name : String
  planting_date : String
  irrigation_schedule : String
  expected_yield_improvement : String
  risk_factor : String
deriving DecidableEq, Repr

/-- `Strategy` (`src/types.ts`).  Only the fields read by the embedded
functions are modelled; the UI-only fields (`id`, `label`, `focus`,
`summary`, `structures`, `blueprints`) are never consulted by the
matcher/scorer core and are kept as opaque strings or dropped. -/
structure Strategy where
  id : String
  label : String
  crops : List CropRecommendation
  total_investment : ℚ
deriving DecidableEq, Repr

/-- `CropData` of the strict-rejection service (8 CSV columns). -/
structure CropData where
  N : ℚ
  P : ℚ
  K : ℚ
  temperature : ℚ
  humidity : ℚ
  ph : ℚ
  rainfall : ℚ
  label : String
deriving DecidableEq, Repr

/-- `FertilizerData` of the strict-rejection service. -/
structure FertilizerData where
  temperature : ℚ
  humidity : ℚ
  moisture : ℚ
  soilType : String
  cropType : String
  nitrogen : ℚ
  potassium : ℚ
  phosphorous : ℚ
  fertilizerName : String
deriving DecidableEq, Repr

/-- Errors a strict-variant method can throw.  `insufficientData` models the
explicit `throw new Error(...)` statements; `typeError` models a runtime
`TypeError` raised by the JavaScript engine itself. -/
inductive JsError where
  | insufficientData (msg : String)
  | typeError (msg : String)
deriving DecidableEq, Repr

instance {ε α : Type} [DecidableEq ε] [DecidableEq α] : DecidableEq (Except ε α) :=
  fun x y =>
    match x, y with
    | .ok a, .ok b =>
      if h : a = b then .isTrue (by rw [h])
      else .isFalse (fun hh => h (by cases hh; rfl))
    | .error a, .error b =>
      if h : a = b then .isTrue (by rw [h])
      else .isFalse (fun hh => h (by cases hh; rfl))
    | .ok _, .error _ => .isFalse (fun hh => Except.noConfusion hh)
    | .error _, .ok _ => .isFalse (fun hh => Except.noConfusion hh)

namespace Ladder

/-!
## The fallback-ladder variant (`DataDrivenPredictor` over `AgriculturalRecord`)

The module-level singleton's `agriculturalData` array is passed explicitly as
`data : List AgriculturalRecord`; all methods are pure reads of it.
-/

/-- Helper `getSimilarSoilTypes`: the fixed similar-soil lookup table. -/
def getSimilarSoilTypes (soilType : String) : List String :=
  let normalizedSoil := soilType.toLower
  if normalizedSoil == "black" then ["black", "red", "alluvial"]
  else if normalizedSoil == "red" then ["red", "black", "loamy"]
  else if normalizedSoil == "alluvial" then ["alluvial", "loamy", "black"]
  else if normalizedSoil == "sandy" then ["sandy", "loamy", "red"]
  else if normalizedSoil == "loamy" then ["loamy", "alluvial", "red"]
  else [normalizedSoil, "black", "red", "alluvial"]

/-- Helper `getGeneralCropMatches`: +3 per crop-category hit, +2 baseline per
input crop (the `forEach` double loop of the source, as a fold). -/
def getGeneralCropMatches (crops : List String) : ℕ :=
  let cropCategories : List (List String) :=
    [["rice", "wheat", "maize"], ["cotton", "sugarcane"], ["soybean"]]
  crops.foldl
    (fun matchCount crop =>
      let normalizedCrop := crop.toLower
      let categoryHits := (cropCategories.filter
        (fun category => category.any
          (fun c => jsIncludes normalizedCrop c || jsIncludes c normalizedCrop))).length
      matchCount + categoryHits * 3 + 2)
    0

/-- Step 1 filter of `predictOptimalCrops`: rainfall within ±200 mm, exact
case-insensitive soil match, `success_rating >= 3`. -/
def tier1 (data : List AgriculturalRecord) (v : VillageData) : List AgriculturalRecord :=
  data.filter (fun record =>
    decide (|record.annual_rainfall_mm - v.annual_rainfall| ≤ 200) &&
    (record.soil_type.toLower == v.soil_type.toLower) &&
    decide ((3 : ℚ) ≤ record.success_rating))

/-- Step 2 filter: rainfall tolerance relaxed to ±400 mm. -/
def tier2 (data : List AgriculturalRecord) (v : VillageData) : List AgriculturalRecord :=
  data.filter (fun record =>
    decide (|record.annual_rainfall_mm - v.annual_rainfall| ≤ 400) &&
    (record.soil_type.toLower == v.soil_type.toLower) &&
    decide ((3 : ℚ) ≤ record.success_rating))

/-- Step 3 filter: ±400 mm and the similar-soil group. -/
def tier3 (data : List AgriculturalRecord) (v : VillageData) : List AgriculturalRecord :=
  let similarSoilTypes := getSimilarSoilTypes v.soil_type
  data.filter (fun record =>
    decide (|record.annual_rainfall_mm - v.annual_rainfall| ≤ 400) &&
    similarSoilTypes.contains record.soil_type.toLower &&
    decide ((3 : ℚ) ≤ record.success_rating))

/-- Step 4 filter: ±600 mm, `success_rating >= 4`, no soil constraint. -/
def tier4 (data : List AgriculturalRecord) (v : VillageData) : List AgriculturalRecord :=
  data.filter (fun record =>
    decide (|record.annual_rainfall_mm - v.annual_rainfall| ≤ 600) &&
    decide ((4 : ℚ) ≤ record.success_rating))

/-- Step 5: top performers regardless of conditions — `success_rating >= 4`,
sorted descending by rating, first 10. -/
def tier5 (data : List AgriculturalRecord) : List AgriculturalRecord :=
  (sortDescBy (fun r => r.success_rating)
    (data.filter (fun record => decide ((4 : ℚ) ≤ record.success_rating)))).take 10

/-- The `suitableCrops` accumulator of `predictOptimalCrops`: the sequential
reassignment chain of steps 1–5, translated let-by-let. -/
def selectSuitableCrops (data : List AgriculturalRecord) (v : VillageData) :
    List AgriculturalRecord :=
  let s1 := tier1 data v
  let s2 := if s1.length < 3 then tier2 data v else s1
  let s3 := if s2.length < 3 then tier3 data v else s2
  let s4 := if s3.length < 3 then tier4 data v else s3
  if s4.length = 0 then tier5 data else s4

/-- Per-crop aggregate of the scorer (the value type of the
`cropPerformance` map, with the derived `totalScore` attached). -/
structure CropPerf where
  crop : String
  records : List AgriculturalRecord
  avgYield : ℚ
  avgROI : ℚ
  avgRating : ℚ
  rainfallScore : ℚ
  totalScore : ℚ
deriving DecidableEq, Repr

/-- One `cropPerformance` map insertion: push the record onto its crop's
bucket, creating the bucket (at the end, in insertion order) if absent. -/
def insertGroup (m : List (String × List AgriculturalRecord)) (r : AgriculturalRecord) :
    List (String × List AgriculturalRecord) :=
  if m.any (fun p => p.1 == r.crop) then
    m.map (fun p => if p.1 == r.crop then (p.1, p.2 ++ [r]) else p)
  else
    m ++ [(r.crop, [r])]

/-- The `suitableCrops.forEach(...)` loop that fills the `cropPerformance`
`Map<string, ...>` with per-crop record buckets, in key-insertion order. -/
def groupByCrop (l : List AgriculturalRecord) : List (String × List AgriculturalRecord) :=
  l.foldl insertGroup []

/-- The averaging pass (`cropPerformance.forEach`) plus the `totalScore`
computed in the `rankedCrops` map step. -/
def mkPerf (v : VillageData) (crop : String) (records : List AgriculturalRecord) : CropPerf :=
  let avgYield := listAvg (records.map (fun r => r.yield_kg_per_hectare))
  let avgROI := listAvg (records.map (fun r => r.roi_percent))
  let avgRating := listAvg (records.map (fun r => r.success_rating))
  let rainfallScore :=
    100 - min (listAvg (records.map (fun r => |r.annual_rainfall_mm - v.annual_rainfall|))) 100
  { crop := crop, records := records, avgYield := avgYield, avgROI := avgROI,
    avgRating := avgRating, rainfallScore := rainfallScore,
    totalScore := avgRating * 20 + avgROI * 0.5 + rainfallScore * 0.3 }

/-- All per-crop aggregates, in map-insertion order. -/
def cropPerformance (v : VillageData) (suitableCrops : List AgriculturalRecord) :
    List CropPerf :=
  (groupByCrop suitableCrops).map (fun p => mkPerf v p.1 p.2)

/-- `rankedCrops`: sort the aggregates descending by `totalScore`, keep the
top 3 (`.sort((a, b) => b.totalScore - a.totalScore).slice(0, 3)`). -/
def rankedOf (v : VillageData) (suitableCrops : List AgriculturalRecord) : List CropPerf :=
  (sortDescBy (fun c => c.totalScore) (cropPerformance v suitableCrops)).take 3

/-- Helper `getOptimalPlantingDate`: majority season of the crop's matched
records, mapped through the fixed season table.  `Object.entries` enumerates
keys in first-insertion order and the stable sort keeps the earliest season
among count ties in front, which `firstDedup` + `sortDescBy` reproduce. -/
def getOptimalPlantingDate (records : List AgriculturalRecord) : String :=
  if records.length = 0 then "March-April"
  else
    let seasons := firstDedup (records.map (fun r => r.season))
    let mostCommonSeason :=
      (sortDescBy (fun s => ((records.countP (fun r => r.season == s)) : ℚ)) seasons).headD ""
    if mostCommonSeason.toLower == "kharif" then "June-July"
    else if mostCommonSeason.toLower == "rabi" then "November-December"
    else if mostCommonSeason.toLower == "zaid" then "March-April"
    else "March-April"

/-- Helper `getIrrigationSchedule` (ladder variant, over the bucket). -/
def getIrrigationSchedule (records : List AgriculturalRecord) (actualRainfall : ℚ) : String :=
  if records.length = 0 then "Weekly irrigation"
  else
    let avgRainfall := listAvg (records.map (fun r => r.annual_rainfall_mm))
    let deficit := avgRainfall - actualRainfall
    if 200 < deficit then "Daily irrigation required"
    else if 100 < deficit then "Irrigation every 2-3 days"
    else if 0 < deficit then "Weekly irrigation"
    else "Minimal irrigation needed"

/-- Helper `calculateYieldImprovement` (ladder variant). -/
def calculateYieldImprovement (avgYield : ℚ) : String :=
  if 4000 < avgYield then "20-30%"
  else if 3000 < avgYield then "15-25%"
  else if 2000 < avgYield then "10-20%"
  else "5-15%"

/-- Helper `assessRiskFactor` (ladder variant).  `rainfallRisk` divides by
`avgRainfall` with no zero guard; in `ℚ` division by zero yields 0 (where the
JS engine would yield `Infinity`/`NaN` without throwing), so theorems about
the nonempty case carry the claim's precondition `avgRainfall ≠ 0`. -/
def assessRiskFactor (records : List AgriculturalRecord) (actualRainfall : ℚ) : String :=
  if records.length = 0 then "Medium"
  else
    let avgRainfall := listAvg (records.map (fun r => r.annual_rainfall_mm))
    let rainfallRisk := |avgRainfall - actualRainfall| / avgRainfall
    let avgRating := listAvg (records.map (fun r => r.success_rating))
    if rainfallRisk < 0.2 ∧ (4 : ℚ) ≤ avgRating then "Low"
    else if rainfallRisk < 0.4 ∧ (3 : ℚ) ≤ avgRating then "Medium"
    else "High"

/-- The hard-coded Tier-6 default list returned when even the fallbacks
produce no records. -/
def defaultRecommendations : List CropRecommendation :=
  [{ name := "Rice", planting_date := "June-July",
     irrigation_schedule := "Weekly irrigation",
     expected_yield_improvement := "10-20%", risk_factor := "Medium" },
   { name := "Wheat", planting_date := "November-December",
     irrigation_schedule := "Bi-weekly irrigation",
     expected_yield_improvement := "15-25%", risk_factor := "Low" },
   { name := "Maize", planting_date := "March-April",
     irrigation_schedule := "Weekly irrigation",
     expected_yield_improvement := "10-20%", risk_factor := "Medium" }]

/-- `predictOptimalCrops` (fallback-ladder variant): tolerance ladder, crop
aggregation, ranking, and the two hard-coded default branches. -/
def predictOptimalCrops (data : List AgriculturalRecord) (v : VillageData) :
    List CropRecommendation :=
  let suitableCrops := selectSuitableCrops data v
  if suitableCrops.length = 0 then defaultRecommendations
  else
    let rankedCrops := rankedOf v suitableCrops
    if rankedCrops.length = 0 then
      [{ name := "Rice", planting_date := "June-July",
         irrigation_schedule := "Weekly irrigation",
         expected_yield_improvement := "10-20%", risk_factor := "Medium" }]
    else
      rankedCrops.map (fun cropData =>
        { name := cropData.crop,
          planting_date := getOptimalPlantingDate cropData.records,
          irrigation_schedule := getIrrigationSchedule cropData.records v.annual_rainfall,
          expected_yield_improvement := calculateYieldImprovement cropData.avgYield,
          risk_factor := assessRiskFactor cropData.records v.annual_rainfall })

/-- The `successfulRecords` filter of `getFertilizerRecommendations`:
high-rated records whose crop and soil contain the query substrings. -/
def successfulRecordsFor (data : List AgriculturalRecord)
    (cropType soilType : String) : List AgriculturalRecord :=
  data.filter (fun record =>
    jsIncludes record.crop.toLower cropType.toLower &&
    jsIncludes record.soil_type.toLower soilType.toLower &&
    decide ((4 : ℚ) ≤ record.success_rating))

/-- Helper `getFertilizerRecommendations` (ladder variant): irrigation types
of high-rated records matching crop and soil substrings, else the fixed
three-item default. -/
def getFertilizerRecommendations (data : List AgriculturalRecord)
    (cropType soilType : String) : List String :=
  let successfulRecords := successfulRecordsFor data cropType soilType
  let practices := firstDedup (successfulRecords.map (fun r => r.irrigation_type))
  if 0 < practices.length then practices.take 3
  else ["Organic Compost", "NPK Fertilizer", "Micronutrients"]

/-- The rainfall-tolerance match count used by the ladder variant's
`calculateConfidenceScore` (the `filter(...).length` pattern with a
tolerance of 200, 400 or 600 mm). -/
def rainfallMatchCount (data : List AgriculturalRecord) (target tol : ℚ) : ℕ :=
  (data.filter (fun record => decide (|record.annual_rainfall_mm - target| ≤ tol))).length

/-- `calculateConfidenceScore` (ladder variant): three weighted sub-scores,
each with its own fallback, rounded and clamped into `[25, 95]`. -/
def calculateConfidenceScore (data : List AgriculturalRecord) (v : VillageData) : ℤ :=
  let rainfallMatches0 := rainfallMatchCount data v.annual_rainfall 200
  let rainfallMatches1 :=
    if rainfallMatches0 < 5 then rainfallMatchCount data v.annual_rainfall 400
    else rainfallMatches0
  let rainfallMatches :=
    if rainfallMatches1 < 3 then rainfallMatchCount data v.annual_rainfall 600
    else rainfallMatches1
  let rainfallScore := min ((rainfallMatches : ℚ) / 20) 1
  let soilMatches0 :=
    (data.filter (fun record => record.soil_type.toLower == v.soil_type.toLower)).length
  let soilMatches :=
    if soilMatches0 = 0 then
      (data.filter (fun record =>
        (getSimilarSoilTypes v.soil_type).contains record.soil_type.toLower)).length
    else soilMatches0
  let soilScore := min ((soilMatches : ℚ) / 10) 1
  let cropMatches0 := v.crops_current.foldl
    (fun count currentCrop =>
      let exactMatches :=
        (data.filter (fun record => record.crop.toLower == currentCrop.toLower)).length
      let partialMatches :=
        (data.filter (fun record =>
          jsIncludes record.crop.toLower currentCrop.toLower ||
          jsIncludes currentCrop.toLower record.crop.toLower)).length
      count + exactMatches * 2 + partialMatches)
    0
  let cropMatches :=
    if cropMatches0 = 0 then getGeneralCropMatches v.crops_current else cropMatches0
  let cropScore := min ((cropMatches : ℚ) / 15) 1
  let weightedScore := rainfallScore * 0.60 + soilScore * 0.25 + cropScore * 0.15
  let confidence := max (jsRound (weightedScore * 100)) 25
  min confidence 95

/-- The strategy-matching filter of `getHistoricalSuccessRate`. -/
def strategyMatchingRecords (data : List AgriculturalRecord) (strategy : Strategy)
    (v : VillageData) : List AgriculturalRecord :=
  data.filter (fun record =>
    strategy.crops.any (fun crop => jsIncludes record.crop.toLower crop.name.toLower) &&
    (record.soil_type.toLower == v.soil_type.toLower) &&
    decide (|record.annual_rainfall_mm - v.annual_rainfall| ≤ 300))

/-- `getHistoricalSuccessRate` (ladder variant): constant 30 with no matching
records, otherwise a rating/ROI blend clamped into `[25, 90]`. -/
def getHistoricalSuccessRate (data : List AgriculturalRecord) (strategy : Strategy)
    (v : VillageData) : ℤ :=
  let matchingRecords := strategyMatchingRecords data strategy v
  if matchingRecords.length = 0 then 30
  else
    let avgSuccessRating := listAvg (matchingRecords.map (fun r => r.success_rating))
    let avgROI := listAvg (matchingRecords.map (fun r => r.roi_percent))
    let successPercentage := (avgSuccessRating / 5) * 60
    let roiBonus := min (avgROI * 0.4) 40
    let totalRate := jsRound (successPercentage + roiBonus)
    min (max totalRate 25) 90

end Ladder

namespace Strict

/-!
## The strict-rejection variant (`src/services/dataService.ts`)

The singleton's `cropData` and `fertilizerData` arrays are passed explicitly;
methods that `throw` return `Except JsError _`.
-/

/-- Helper `getIrrigationSchedule` (strict variant, over a single record). -/
def getIrrigationSchedule (cropRainfall actualRainfall : ℚ) : String :=
  let deficit := cropRainfall - actualRainfall
  if 100 < deficit then "Daily irrigation required"
  else if 50 < deficit then "Irrigation every 2-3 days"
  else if 0 < deficit then "Weekly irrigation"
  else "Minimal irrigation needed"

/-- Helper `calculateYieldImprovement` (strict variant). -/
def calculateYieldImprovement (crop : CropData) (village : VillageData) : String :=
  if |crop.rainfall - village.annual_rainfall| ≤ 50 then "15-25%" else "5-15%"

/-- Helper `assessRiskFactor` (strict variant).  `rainfallRisk` divides by
`crop.rainfall` with no zero guard; as in the ladder variant, the `ℚ` model
maps division by zero to 0 and theorems carry the precondition
`crop.rainfall ≠ 0`. -/
def assessRiskFactor (crop : CropData) (village : VillageData) : String :=
  let rainfallRisk := |crop.rainfall - village.annual_rainfall| / crop.rainfall
  if rainfallRisk < 0.2 then "Low"
  else if rainfallRisk < 0.4 then "Medium"
  else "High"

/-- The JavaScript runtime behaviour of the call
`this.getOptimalPlantingDate(crop.label, annual_rainfall)` made by the strict
`predictOptimalCrops`: the method's signature is
`getOptimalPlantingDate(cropName: string, locations: RainfallData[])`, but the
call site passes the *number* `annual_rainfall` as `locations`.  At runtime
`locations.length` is `undefined` (so the `=== 0` early return is not taken)
and `locations.reduce` is `undefined`, so evaluating the first monthly
average throws `TypeError: locations.reduce is not a function`. -/
def getOptimalPlantingDateOnNumber (cropName : String) (locations : ℚ) :
    Except JsError String :=
  .error (.typeError "locations.reduce is not a function")

/-- The single fixed-tolerance filter of the strict `predictOptimalCrops`:
rainfall within ±50 mm, temperature in [15, 40], pH in [5.0, 8.5]. -/
def suitableCropsOf (cropData : List CropData) (v : VillageData) : List CropData :=
  cropData.filter (fun crop =>
    decide (|crop.rainfall - v.annual_rainfall| ≤ 50) &&
    decide ((15 : ℚ) ≤ crop.temperature ∧ crop.temperature ≤ 40) &&
    decide ((5 : ℚ) ≤ crop.ph ∧ crop.ph ≤ 8.5))

/-- `predictOptimalCrops` (strict variant): fails outright below 3 matches;
above, it scores and ranks the matches and maps them to recommendations —
a map whose first step is the mistyped `getOptimalPlantingDate` call. -/
def predictOptimalCrops (cropData : List CropData) (v : VillageData) :
    Except JsError (List CropRecommendation) :=
  let suitableCrops := suitableCropsOf cropData v
  if suitableCrops.length < 3 then
    .error (.insufficientData
      ("Insufficient crop matches found (" ++ toString suitableCrops.length ++
       " suitable crops). Need minimum 3 matches for reliable recommendations."))
  else
    let scoredCrops := suitableCrops.map (fun crop =>
      let rainfallScore := 100 - |crop.rainfall - v.annual_rainfall|
      let tempScore : ℚ :=
        if (20 : ℚ) ≤ crop.temperature ∧ crop.temperature ≤ 30 then 100 else 70
      let phScore : ℚ := if (6 : ℚ) ≤ crop.ph ∧ crop.ph ≤ 7.5 then 100 else 80
      (crop, rainfallScore + tempScore + phScore))
    let topCrops := (sortDescBy (fun p => p.2) scoredCrops).take 3
    topCrops.mapM (fun p => do
      let plantingDate ← getOptimalPlantingDateOnNumber p.1.label v.annual_rainfall
      pure { name := p.1.label,
             planting_date := plantingDate,
             irrigation_schedule := getIrrigationSchedule p.1.rainfall v.annual_rainfall,
             expected_yield_improvement := calculateYieldImprovement p.1 v,
             risk_factor := assessRiskFactor p.1 v })

/-- `getFertilizerRecommendations` (strict variant): fertilizer names of
records matching the crop or soil substring, deduplicated, first 3 — possibly
the empty list. -/
def getFertilizerRecommendations (fertilizerData : List FertilizerData)
    (cropType soilType : String) : List String :=
  let matchedRecords := fertilizerData.filter (fun fert =>
    jsIncludes fert.cropType.toLower cropType.toLower ||
    jsIncludes fert.soilType.toLower soilType.toLower)
  (firstDedup (matchedRecords.map (fun m => m.fertilizerName))).take 3

/-- `calculateConfidenceScore` (strict variant): throws on any of the four
insufficiency checks, otherwise returns `round(weighted × 100)` (already
≥ 40) capped at 95. -/
def calculateConfidenceScore (cropData : List CropData)
    (fertilizerData : List FertilizerData) (v : VillageData) : Except JsError ℤ :=
  let rainfallMatches := (cropData.filter (fun crop =>
    decide (|crop.rainfall - v.annual_rainfall| ≤ 50))).length
  if rainfallMatches < 10 then
    .error (.insufficientData
      ("Insufficient rainfall data matches (" ++ toString rainfallMatches ++
       " found, minimum 10 required). Cannot provide reliable recommendations."))
  else
    let rainfallScore := min ((rainfallMatches : ℚ) / 50) 1
    let soilMatches := (fertilizerData.filter (fun f =>
      jsIncludes f.soilType.toLower v.soil_type.toLower ||
      jsIncludes v.soil_type.toLower f.soilType.toLower)).length
    if soilMatches = 0 then
      .error (.insufficientData
        ("No soil data matches found for \"" ++ v.soil_type ++
         "\". Cannot provide reliable recommendations."))
    else
      let soilScore := min ((soilMatches : ℚ) / 8) 1
      let cropMatches := v.crops_current.foldl
        (fun count currentCrop =>
          let exactMatches := (cropData.filter (fun crop =>
            crop.label.toLower == currentCrop.toLower)).length
          let partialMatches := (cropData.filter (fun crop =>
            jsIncludes crop.label.toLower currentCrop.toLower ||
            jsIncludes currentCrop.toLower crop.label.toLower)).length
          count + exactMatches * 2 + partialMatches)
        0
      if cropMatches = 0 then
        .error (.insufficientData
          ("No historical crop data found for current crops: " ++
           String.intercalate ", " v.crops_current ++
           ". Cannot provide reliable recommendations."))
      else
        let cropScore := min ((cropMatches : ℚ) / 20) 1
        let weightedScore := rainfallScore * 0.60 + soilScore * 0.25 + cropScore * 0.15
        let confidence := jsRound (weightedScore * 100)
        if confidence < 40 then
          .error (.insufficientData
            ("Data quality insufficient (" ++ toString confidence ++
             "% confidence). Minimum 40% required for reliable recommendations."))
        else
          .ok (min confidence 95)

/-- `getHistoricalSuccessRate` (strict variant): crop/soil/rainfall bonuses
summed and clamped into `[25, 90]`. -/
def getHistoricalSuccessRate (cropData : List CropData)
    (fertilizerData : List FertilizerData) (strategy : Strategy)
    (v : VillageData) : ℤ :=
  let cropMatches := strategy.crops.filter (fun crop =>
    cropData.any (fun data => jsIncludes data.label.toLower crop.name.toLower))
  let cropSuccessRate : ℚ :=
    if 0 < cropMatches.length then
      ((cropMatches.length : ℚ) / (strategy.crops.length : ℚ)) * 50
    else 20
  let soilBonus : ℚ :=
    if fertilizerData.any (fun f => jsIncludes f.soilType.toLower v.soil_type.toLower)
    then 15 else 5
  let matchingCrops := cropData.filter (fun crop =>
    strategy.crops.any (fun sc => jsIncludes crop.label.toLower sc.name.toLower))
  let rainfallBonus : ℚ :=
    if 0 < matchingCrops.length then
      let avgCropRainfall := listAvg (matchingCrops.map (fun c => c.rainfall))
      let rainfallDiff := |avgCropRainfall - v.annual_rainfall|
      if rainfallDiff ≤ 50 then 20
      else if rainfallDiff ≤ 100 then 15
      else if rainfallDiff ≤ 200 then 10
      else 5
    else 5
  let totalRate := jsRound (cropSuccessRate + soilBonus + rainfallBonus)
  min (max totalRate 25) 90

end Strict

namespace Parsing

/-!
## The Record Store's CSV parsing layer

Here the result of `parseFloat` must be modelled honestly: a JavaScript
`number` can be `NaN` or `±Infinity`, values `ℚ` cannot hold, so parsed
records carry `JsNum` fields.
-/

/-- A JavaScript `number` as produced by `parseFloat`: finite, `NaN`, or
`±Infinity`. -/
inductive JsNum where
  | num (q : ℚ)
  | nan
  | inf
  | negInf
deriving DecidableEq, Repr

/-- Whether a parsed number is finite (`Number.isFinite`). -/
def JsNum.isFinite : JsNum → Bool
  | .num _ => true
  | _ => false

/-- Value of a digit string read left to right. -/
def digitsToNat (cs : List Char) : ℕ :=
  cs.foldl (fun n c => n * 10 + (c.toNat - '0'.toNat)) 0

/-- Model of the JavaScript `parseFloat` builtin: skip leading whitespace,
read an optional sign, then either the `Infinity` literal or a longest
decimal-digit prefix with an optional fractional part; with no digits at all
the result is `NaN`.  (`parseFloat` additionally accepts an exponent suffix,
which no input relevant to the claims uses and which never turns a digitless
string into a number, so it is not modelled.)  Crucially, `parseFloat` never
throws: unparsable text yields `NaN`, not an exception. -/
def jsParseFloat (s : String) : JsNum :=
  let cs := s.toList.dropWhile (fun c => c.isWhitespace)
  let signAndRest : Bool × List Char :=
    match cs with
    | '-' :: rest => (true, rest)
    | '+' :: rest => (false, rest)
    | _ => (false, cs)
  let neg := signAndRest.1
  let cs2 := signAndRest.2
  if "Infinity".toList.isPrefixOf cs2 then (if neg then .negInf else .inf)
  else
    let intPart := cs2.takeWhile (fun c => c.isDigit)
    let rest := cs2.dropWhile (fun c => c.isDigit)
    let fracPart :=
      match rest with
      | '.' :: r => r.takeWhile (fun c => c.isDigit)
      | _ => []
    if intPart.isEmpty && fracPart.isEmpty then .nan
    else
      let mag : ℚ :=
        (digitsToNat intPart : ℚ) + (digitsToNat fracPart : ℚ) / ((10 : ℚ) ^ fracPart.length)
      .num (if neg then -mag else mag)

/-- The crop-dataset record as it leaves `parseCropRow`: in TypeScript its
numeric fields are typed `number`, which includes `NaN` and `±Infinity`,
hence `JsNum` here. -/
structure CropDataParsed where
  N : JsNum
  P : JsNum
  K : JsNum
  temperature : JsNum
  humidity : JsNum
  ph : JsNum
  rainfall : JsNum
  label : String
deriving DecidableEq, Repr

/-- All numeric fields of a parsed crop record are finite. -/
def CropDataParsed.allFinite (r : CropDataParsed) : Bool :=
  r.N.isFinite && r.P.isFinite && r.K.isFinite && r.temperature.isFinite &&
  r.humidity.isFinite && r.ph.isFinite && r.rainfall.isFinite

/-- `parseCropRow`: the only operation in it that can throw is
`row[7].trim()` when `row[7]` is `undefined` (fewer than 8 columns);
`parseFloat` applied to a missing column receives `undefined`, which
stringifies to `"undefined"` and parses to `NaN` without throwing. -/
def parseCropRow (row : List String) : Except Unit CropDataParsed :=
  match row.get? 7 with
  | none => .error ()
  | some s7 =>
    .ok { N := jsParseFloat (row.getD 0 "undefined"),
          P := jsParseFloat (row.getD 1 "undefined"),
          K := jsParseFloat (row.getD 2 "undefined"),
          temperature := jsParseFloat (row.getD 3 "undefined"),
          humidity := jsParseFloat (row.getD 4 "undefined"),
          ph := jsParseFloat (row.getD 5 "undefined"),
          rainfall := jsParseFloat (row.getD 6 "undefined"),
          label := s7.trim }

/-- The loop body's `try { data.push(rowParser(row)) } catch { ... }`:
push the parsed record, or keep `data` unchanged when the parser threw. -/
def pushIfParsed {T : Type} (data : List T) (res : Except Unit T) : List T :=
  match res with
  | .ok r => data ++ [r]
  | .error _ => data

/-- The generic `parseCSV` shared verbatim by both services: split into
lines, use the first line only for its column count, keep every later line
whose column count matches and whose row parser does not throw. -/
def parseCSV {T : Type} (csvText : String) (rowParser : List String → Except Unit T) :
    List T :=
  let lines := csvText.trim.splitOn "\n"
  let headers := (lines.headD "").splitOn ","
  (lines.drop 1).foldl
    (fun data line =>
      let row := line.splitOn ","
      if row.length = headers.length then pushIfParsed data (rowParser row)
      else data)
    []

end Parsing

/-! ## Library lemmas about the JS-idiom helpers -/

theorem mem_insertDescBy {α : Type} (f : α → ℚ) (a x : α) (l : List α) :
    x ∈ insertDescBy f a l ↔ x = a ∨ x ∈ l := by
  induction l with
  | nil => simp [insertDescBy]
  | cons b l ih =>
    by_cases h : f b ≤ f a
    · simp [insertDescBy, h]
    · simp only [insertDescBy, if_neg h, List.mem_cons, ih]
      tauto

theorem insertDescBy_perm {α : Type} (f : α → ℚ) (a : α) (l : List α) :
    (insertDescBy f a l).Perm (a :: l) := by
  induction l with
  | nil => simp [insertDescBy]
  | cons b l ih =>
    by_cases h : f b ≤ f a
    · simp [insertDescBy, h]
    · simp only [insertDescBy, if_neg h]
      exact ((ih.cons b).trans (List.Perm.swap a b l))

theorem sortDescBy_perm {α : Type} (f : α → ℚ) (l : List α) :
    (sortDescBy f l).Perm l := by
  induction l with
  | nil => simp [sortDescBy]
  | cons a l ih =>
    exact (insertDescBy_perm f a (sortDescBy f l)).trans (ih.cons a)

theorem length_sortDescBy {α : Type} (f : α → ℚ) (l : List α) :
    (sortDescBy f l).length = l.length :=
  (sortDescBy_perm f l).length_eq

theorem pairwise_insertDescBy {α : Type} (f : α → ℚ) (a : α) (l : List α)
    (h : l.Pairwise (fun x y => f y ≤ f x)) :
    (insertDescBy f a l).Pairwise (fun x y => f y ≤ f x) := by
  induction l with
  | nil => simp [insertDescBy]
  | cons b l ih =>
    rcases List.pairwise_cons.mp h with ⟨hb, hl⟩
    by_cases hba : f b ≤ f a
    · rw [insertDescBy, if_pos hba]
      refine List.pairwise_cons.mpr ⟨?_, h⟩
      intro x hx
      rcases List.mem_cons.mp hx with rfl | hx
      · exact hba
      · exact le_trans (hb x hx) hba
    · rw [insertDescBy, if_neg hba]
      refine List.pairwise_cons.mpr ⟨?_, ih hl⟩
      intro x hx
      rcases (mem_insertDescBy f a x l).mp hx with rfl | hx
      · exact (le_of_not_le hba)
      · exact hb x hx

theorem pairwise_sortDescBy {α : Type} (f : α → ℚ) (l : List α) :
    (sortDescBy f l).Pairwise (fun x y => f y ≤ f x) := by
  induction l with
  | nil => simp [sortDescBy]
  | cons a l ih => exact pairwise_insertDescBy f a _ ih

theorem mem_firstDedup {a : String} : ∀ {l : List String}, a ∈ firstDedup l ↔ a ∈ l
  | [] => by simp [firstDedup]
  | b :: l => by
    rw [firstDedup]
    by_cases hab : a = b
    · subst hab
      simp
    · have : (l.filter (fun x => x ≠ b)).length ≤ l.length := List.length_filter_le _ _
      simp only [List.mem_cons, hab, false_or]
      rw [mem_firstDedup]
      simp [List.mem_filter, hab]
termination_by l => l.length
decreasing_by simpa using Nat.lt_succ_of_le (List.length_filter_le _ _)

theorem nodup_firstDedup : ∀ (l : List String), (firstDedup l).Nodup
  | [] => by simp [firstDedup]
  | b :: l => by
    rw [firstDedup]
    refine List.nodup_cons.mpr ⟨?_, nodup_firstDedup _⟩
    intro hmem
    have := mem_firstDedup.mp hmem
    simp [List.mem_filter] at this
termination_by l => l.length
decreasing_by simpa using Nat.lt_succ_of_le (List.length_filter_le _ _)

theorem firstDedup_eq_nil {l : List String} : firstDedup l = [] ↔ l = [] := by
  cases l with
  | nil => simp [firstDedup]
  | cons b l => simp [firstDedup]

theorem firstDedup_append_singleton : ∀ (l : List String) (a : String),
    firstDedup (l ++ [a]) = if a ∈ l then firstDedup l else firstDedup l ++ [a]
  | [], a => by simp [firstDedup]
  | b :: l, a => by
    by_cases hab : a = b
    · subst hab
      simp only [List.cons_append, firstDedup, List.mem_cons, true_or, if_pos]
      rw [List.filter_append]
      simp [firstDedup]
    · have hlen : (l.filter (fun x => x ≠ b)).length < l.length + 1 :=
        Nat.lt_succ_of_le (List.length_filter_le _ _)
      simp only [List.cons_append, firstDedup, List.filter_append]
      have hfa : [a].filter (fun x => x ≠ b) = [a] := by simp [hab]
      rw [hfa, firstDedup_append_singleton (l.filter (fun x => x ≠ b)) a]
      have hmem : a ∈ l.filter (fun x => x ≠ b) ↔ a ∈ l := by
        simp [List.mem_filter, hab]
      by_cases hal : a ∈ l
      · simp [hmem, hal, hab]
      · simp [hmem, hal, hab]
termination_by l _ => l.length
decreasing_by simpa using Nat.lt_succ_of_le (List.length_filter_le _ _)

/-! ## The `Map`-grouping of the ladder scorer, in closed form -/

/-- `insertGroup` applied to the closed form: one step of the
`cropPerformance` map construction. -/
theorem insertGroup_closed (l : List AgriculturalRecord) (r : AgriculturalRecord) :
    Ladder.insertGroup
        ((firstDedup (l.map (fun x => x.crop))).map
          (fun c => (c, l.filter (fun x => x.crop == c)))) r =
      (firstDedup ((l ++ [r]).map (fun x => x.crop))).map
        (fun c => (c, (l ++ [r]).filter (fun x => x.crop == c))) := by
  have hmap : (l ++ [r]).map (fun x => x.crop) = l.map (fun x => x.crop) ++ [r.crop] := by
    simp
  rw [hmap, firstDedup_append_singleton]
  by_cases hin : r.crop ∈ l.map (fun x => x.crop)
  · have hany :
        ((firstDedup (l.map (fun x => x.crop))).map
          (fun c => (c, l.filter (fun x => x.crop == c)))).any
            (fun p => p.1 == r.crop) = true := by
      rw [List.any_eq_true]
      refine ⟨(r.crop, l.filter (fun x => x.crop == r.crop)), ?_, by simp⟩
      exact List.mem_map.mpr ⟨r.crop, mem_firstDedup.mpr hin, rfl⟩
    rw [if_pos hin]
    rw [Ladder.insertGroup, if_pos hany]
    rw [List.map_map]
    apply List.map_congr_left
    intro c hc
    by_cases hcr : c = r.crop
    · subst hcr
      simp [List.filter_append]
    · simp only [Function.comp]
      have h1 : (c == r.crop) = false := by simp [hcr]
      have h2 : (r.crop == c) = false := by
        simp only [beq_eq_false_iff_ne, ne_eq]
        exact fun h => hcr h.symm
      simp [List.filter_append, h1, h2]
  · have hany :
        ((firstDedup (l.map (fun x => x.crop))).map
          (fun c => (c, l.filter (fun x => x.crop == c)))).any
            (fun p => p.1 == r.crop) = false := by
      rw [List.any_eq_false]
      rintro ⟨c, g⟩ hc
      rcases List.mem_map.mp hc with ⟨c0, hc0, hc0eq⟩
      cases hc0eq
      simp only [beq_iff_eq]
      intro hcr
      exact hin (hcr ▸ mem_firstDedup.mp hc0)
    rw [if_neg hin]
    rw [Ladder.insertGroup, if_neg (by rw [hany]; simp)]
    rw [List.map_append]
    congr 1
    · apply List.map_congr_left
      intro c hc
      have hcl : c ∈ l.map (fun x => x.crop) := mem_firstDedup.mp hc
      have hcr : ¬(r.crop = c) := fun h => hin (h ▸ hcl)
      have h2 : (r.crop == c) = false := by simp [hcr]
      simp [List.filter_append, h2]
    · have hnil : l.filter (fun x => x.crop == r.crop) = [] := by
        rw [List.filter_eq_nil_iff]
        intro x hx
        simp only [beq_iff_eq]
        intro hxr
        exact hin (List.mem_map.mpr ⟨x, hx, hxr⟩)
      simp [List.filter_append, hnil]

/-- The `cropPerformance` map in closed form: one bucket per distinct crop
name in first-occurrence order, each bucket being the sublist of records of
that crop. -/
theorem groupByCrop_eq (l : List AgriculturalRecord) :
    Ladder.groupByCrop l =
      (firstDedup (l.map (fun r => r.crop))).map
        (fun c => (c, l.filter (fun r => r.crop == c))) := by
  induction l using List.reverseRecOn with
  | nil => simp [Ladder.groupByCrop, firstDedup]
  | append_singleton l r ih =>
    rw [Ladder.groupByCrop, List.foldl_append]
    show Ladder.insertGroup (Ladder.groupByCrop l) r = _
    rw [ih, insertGroup_closed]

/-- The tier ladder as the spec words it, for comparison with the source's
sequential-reassignment `selectSuitableCrops`: tiers 2–4 are each tried only
when the previous tier produced fewer than 3 candidates, tier 5 only when
tier 4 produced zero. -/
def fallbackLadderSpec (data : List AgriculturalRecord) (v : VillageData) :
    List AgriculturalRecord :=
  if 3 ≤ (Ladder.tier1 data v).length then Ladder.tier1 data v
  else if 3 ≤ (Ladder.tier2 data v).length then Ladder.tier2 data v
  else if 3 ≤ (Ladder.tier3 data v).length then Ladder.tier3 data v
  else if (Ladder.tier4 data v).length = 0 then Ladder.tier5 data
  else Ladder.tier4 data v

/-- The spec's description of one scorer aggregate: the group of a crop is
the sublist of candidates with that crop name; the averages are arithmetic
means over the group; `rainfallScore = 100 − min(meanAbsDeviation, 100)`;
`totalScore = avgRating×20 + avgROI×0.5 + rainfallScore×0.3`. -/
def scorerSpecPerf (v : VillageData) (suitable : List AgriculturalRecord)
    (c : String) : Ladder.CropPerf :=
  let group := suitable.filter (fun r => r.crop == c)
  let avgYield := (group.map (fun r => r.yield_kg_per_hectare)).sum / group.length
  let avgROI := (group.map (fun r => r.roi_percent)).sum / group.length
  let avgRating := (group.map (fun r => r.success_rating)).sum / group.length
  let meanAbsDeviation :=
    (group.map (fun r => |r.annual_rainfall_mm - v.annual_rainfall|)).sum / group.length
  let rainfallScore := 100 - min meanAbsDeviation 100
  { crop := c, records := group, avgYield := avgYield, avgROI := avgROI,
    avgRating := avgRating, rainfallScore := rainfallScore,
    totalScore := avgRating * 20 + avgROI * 0.5 + rainfallScore * 0.3 }

/-- The `cropPerformance` aggregates in closed form: one per distinct crop
name of the candidate set, each computed as the spec describes. -/
theorem cropPerformance_closed (v : VillageData) (s : List AgriculturalRecord) :
    Ladder.cropPerformance v s =
      (firstDedup (s.map (fun r => r.crop))).map (scorerSpecPerf v s) := by
  rw [Ladder.cropPerformance, groupByCrop_eq, List.map_map]
  apply List.map_congr_left
  intro c hc
  simp only [Function.comp]
  unfold Ladder.mkPerf scorerSpecPerf listAvg
  simp

theorem cropPerformance_length (v : VillageData) (s : List AgriculturalRecord) :
    (Ladder.cropPerformance v s).length = (firstDedup (s.map (fun r => r.crop))).length := by
  rw [cropPerformance_closed, List.length_map]

theorem rankedOf_length_bounds (v : VillageData) (s : List AgriculturalRecord)
    (hs : s ≠ []) :
    1 ≤ (Ladder.rankedOf v s).length ∧ (Ladder.rankedOf v s).length ≤ 3 := by
  have hlen : (Ladder.rankedOf v s).length =
      min 3 (Ladder.cropPerformance v s).length := by
    rw [Ladder.rankedOf, List.length_take, length_sortDescBy]
  have hpos : 1 ≤ (Ladder.cropPerformance v s).length := by
    rw [cropPerformance_length]
    have : firstDedup (s.map (fun r => r.crop)) ≠ [] := by
      rw [Ne, firstDedup_eq_nil, List.map_eq_nil_iff]
      exact hs
    exact List.length_pos.mpr this
  omega

/-! ## Claim theorems -/

/-- **C1.** For every record store and every profile, the fallback-ladder
`predictOptimalCrops` returns between 1 and 3 recommendations (it is a total
function into a plain list — no exception path exists), and on the empty
record store it returns exactly the hard-coded 3-item Rice/Wheat/Maize
default list with its fixed planting, irrigation, yield-improvement and risk
values. -/
theorem claim1_ladder_predict_bounds_and_empty_default
    (data : List AgriculturalRecord) (v : VillageData) :
    (1 ≤ (Ladder.predictOptimalCrops data v).length ∧
      (Ladder.predictOptimalCrops data v).length ≤ 3) ∧
    Ladder.predictOptimalCrops [] v =
      [{ name := "Rice", planting_date := "June-July",
         irrigation_schedule := "Weekly irrigation",
         expected_yield_improvement := "10-20%", risk_factor := "Medium" },
       { name := "Wheat", planting_date := "November-December",
         irrigation_schedule := "Bi-weekly irrigation",
         expected_yield_improvement := "15-25%", risk_factor := "Low" },
       { name := "Maize", planting_date := "March-April",
         irrigation_schedule := "Weekly irrigation",
         expected_yield_improvement := "10-20%", risk_factor := "Medium" }] := by
  refine ⟨?_, rfl⟩
  simp only [Ladder.predictOptimalCrops]
  by_cases h : (Ladder.selectSuitableCrops data v).length = 0
  · rw [if_pos h]
    simp [Ladder.defaultRecommendations]
  · have hs : Ladder.selectSuitableCrops data v ≠ [] := by
      intro hnil
      rw [hnil] at h
      exact h rfl
    have hb := rankedOf_length_bounds v _ hs
    have hr0 : ¬((Ladder.rankedOf v (Ladder.selectSuitableCrops data v)).length = 0) := by
      omega
    rw [if_neg h, if_neg hr0, List.length_map]
    exact hb

/-- **C4.** The fallback-ladder candidate selection equals the spec's strict
tier ordering: tier 1 first; tiers 2, 3 and 4 each only when the previous
tier produced fewer than 3 candidates; tier 5 (rating ≥ 4, sorted descending
by rating, capped at 10) only when tier 4 produced zero. -/
theorem claim4_ladder_tier_ordering (data : List AgriculturalRecord) (v : VillageData) :
    Ladder.selectSuitableCrops data v = fallbackLadderSpec data v := by
  simp only [Ladder.selectSuitableCrops, fallbackLadderSpec]
  split_ifs <;> first | rfl | omega

/-- **C5.** The fallback-ladder `calculateConfidenceScore` always lies in
`[25, 95]`; the strict-rejection variant, whenever it returns instead of
throwing, returns a value in `[40, 95]`. -/
theorem claim5_confidence_score_bounds :
    (∀ (data : List AgriculturalRecord) (v : VillageData),
      25 ≤ Ladder.calculateConfidenceScore data v ∧
      Ladder.calculateConfidenceScore data v ≤ 95) ∧
    (∀ (cropData : List CropData) (fertilizerData : List FertilizerData)
      (v : VillageData) (n : ℤ),
      Strict.calculateConfidenceScore cropData fertilizerData v = .ok n →
      40 ≤ n ∧ n ≤ 95) := by
  constructor
  · intro data v
    simp only [Ladder.calculateConfidenceScore]
    refine ⟨le_min (le_max_right _ _) (by norm_num), min_le_right _ _⟩
  · intro cropData fertilizerData v n h
    simp only [Strict.calculateConfidenceScore] at h
    split_ifs at h with h1 h2 h3 h4
    rw [Except.ok.injEq] at h
    subst h
    push_neg at h4
    exact ⟨le_min h4 (by norm_num), min_le_right _ _⟩

/-- **C7.** `getHistoricalSuccessRate` always lies in `[25, 90]` in both
variants; the fallback-ladder variant returns the constant 30 exactly when no
record passes the strategy-crop/soil/±300 mm filter, and otherwise returns
`min(max(round(avgRating/5×60 + min(avgROI×0.4, 40)), 25), 90)`. -/
theorem claim7_historical_success_rate :
    (∀ (data : List AgriculturalRecord) (strategy : Strategy) (v : VillageData),
      25 ≤ Ladder.getHistoricalSuccessRate data strategy v ∧
      Ladder.getHistoricalSuccessRate data strategy v ≤ 90) ∧
    (∀ (cropData : List CropData) (fertilizerData : List FertilizerData)
      (strategy : Strategy) (v : VillageData),
      25 ≤ Strict.getHistoricalSuccessRate cropData fertilizerData strategy v ∧
      Strict.getHistoricalSuccessRate cropData fertilizerData strategy v ≤ 90) ∧
    (∀ (data : List AgriculturalRecord) (strategy : Strategy) (v : VillageData),
      Ladder.strategyMatchingRecords data strategy v = [] →
      Ladder.getHistoricalSuccessRate data strategy v = 30) ∧
    (∀ (data : List AgriculturalRecord) (strategy : Strategy) (v : VillageData),
      Ladder.strategyMatchingRecords data strategy v ≠ [] →
      Ladder.getHistoricalSuccessRate data strategy v =
        min (max (jsRound
          ((listAvg ((Ladder.strategyMatchingRecords data strategy v).map
              (fun r => r.success_rating)) / 5) * 60 +
           min (listAvg ((Ladder.strategyMatchingRecords data strategy v).map
              (fun r => r.roi_percent)) * 0.4) 40)) 25) 90) := by
  refine ⟨?_, ?_, ?_, ?_⟩
  · intro data strategy v
    simp only [Ladder.getHistoricalSuccessRate]
    split_ifs
    · norm_num
    · exact ⟨le_min (le_max_right _ _) (by norm_num), min_le_right _ _⟩
  · intro cropData fertilizerData strategy v
    simp only [Strict.getHistoricalSuccessRate]
    exact ⟨le_min (le_max_right _ _) (by norm_num), min_le_right _ _⟩
  · intro data strategy v h
    simp only [Ladder.getHistoricalSuccessRate]
    rw [if_pos (by rw [h]; rfl)]
  · intro data strategy v h
    simp only [Ladder.getHistoricalSuccessRate]
    rw [if_neg (fun h0 => h (List.eq_nil_of_length_eq_zero h0))]

/-- **C8.** Counting records whose rainfall lies within a tolerance of the
target is monotone in the tolerance, so each widening step of the confidence
sub-score ladder (±200 → ±400 → ±600) never decreases the candidate count. -/
theorem claim8_tolerance_monotonicity :
    (∀ (data : List AgriculturalRecord) (target t1 t2 : ℚ), t1 ≤ t2 →
      Ladder.rainfallMatchCount data target t1 ≤ Ladder.rainfallMatchCount data target t2) ∧
    (∀ (data : List AgriculturalRecord) (target : ℚ),
      Ladder.rainfallMatchCount data target 200 ≤ Ladder.rainfallMatchCount data target 400 ∧
      Ladder.rainfallMatchCount data target 400 ≤ Ladder.rainfallMatchCount data target 600) := by
  have hmono : ∀ (data : List AgriculturalRecord) (target t1 t2 : ℚ), t1 ≤ t2 →
      Ladder.rainfallMatchCount data target t1 ≤ Ladder.rainfallMatchCount data target t2 := by
    intro data target t1 t2 h
    induction data with
    | nil => simp [Ladder.rainfallMatchCount]
    | cons r l ih =>
      simp only [Ladder.rainfallMatchCount] at ih ⊢
      rw [List.filter_cons, List.filter_cons]
      by_cases h1 : |r.annual_rainfall_mm - target| ≤ t1
      · have h2 : |r.annual_rainfall_mm - target| ≤ t2 := le_trans h1 h
        rw [if_pos (by simpa using h1), if_pos (by simpa using h2)]
        simpa using ih
      · rw [if_neg (by simpa using h1)]
        by_cases h2 : |r.annual_rainfall_mm - target| ≤ t2
        · rw [if_pos (by simpa using h2)]
          simp only [List.length_cons]
          exact le_trans ih (Nat.le_succ _)
        · rw [if_neg (by simpa using h2)]
          exact ih
  exact ⟨hmono, fun data target =>
    ⟨hmono data target 200 400 (by norm_num), hmono data target 400 600 (by norm_num)⟩⟩

/-- **C10.** `assessRiskFactor` divides by a rainfall mean (ladder variant)
resp. the record's rainfall (strict variant) with no zero guard; JS division
cannot throw, and under the precondition that the divisor is nonzero the
function returns one of exactly "Low", "Medium", "High" — the ladder variant
returning "Medium" outright on an empty bucket. -/
theorem claim10_risk_factor_range :
    (∀ (actualRainfall : ℚ), Ladder.assessRiskFactor [] actualRainfall = "Medium") ∧
    (∀ (records : List AgriculturalRecord) (actualRainfall : ℚ),
      records ≠ [] →
      listAvg (records.map (fun r => r.annual_rainfall_mm)) ≠ 0 →
      (Ladder.assessRiskFactor records actualRainfall = "Low" ∨
       Ladder.assessRiskFactor records actualRainfall = "Medium" ∨
       Ladder.assessRiskFactor records actualRainfall = "High")) ∧
    (∀ (crop : CropData) (v : VillageData), crop.rainfall ≠ 0 →
      (Strict.assessRiskFactor crop v = "Low" ∨
       Strict.assessRiskFactor crop v = "Medium" ∨
       Strict.assessRiskFactor crop v = "High")) := by
  refine ⟨?_, ?_, ?_⟩
  · intro actualRainfall
    simp [Ladder.assessRiskFactor]
  · intro records actualRainfall hne hdiv
    simp only [Ladder.assessRiskFactor]
    split_ifs <;> tauto
  · intro crop v hdiv
    simp only [Strict.assessRiskFactor]
    split_ifs <;> tauto

/-- **C6.** The ladder scorer groups the candidates by crop name (one
aggregate per distinct crop, whose averages and
`totalScore = avgRating×20 + avgROI×0.5 + rainfallScore×0.3` are computed
over exactly the records of that crop), and the returned ranking is sorted
descending by `totalScore` and truncated to at most 3 entries drawn from
those aggregates. -/
theorem claim6_ladder_scorer (data : List AgriculturalRecord) (v : VillageData) :
    (Ladder.rankedOf v (Ladder.selectSuitableCrops data v)).Pairwise
      (fun a b => b.totalScore ≤ a.totalScore) ∧
    (Ladder.rankedOf v (Ladder.selectSuitableCrops data v)).length ≤ 3 ∧
    Ladder.cropPerformance v (Ladder.selectSuitableCrops data v) =
      (firstDedup ((Ladder.selectSuitableCrops data v).map (fun r => r.crop))).map
        (scorerSpecPerf v (Ladder.selectSuitableCrops data v)) ∧
    ∀ e ∈ Ladder.rankedOf v (Ladder.selectSuitableCrops data v),
      e ∈ Ladder.cropPerformance v (Ladder.selectSuitableCrops data v) := by
  refine ⟨?_, ?_, cropPerformance_closed v _, ?_⟩
  · exact List.Pairwise.sublist (List.take_sublist 3 _) (pairwise_sortDescBy _ _)
  · rw [Ladder.rankedOf, List.length_take]
    omega
  · intro e he
    rw [Ladder.rankedOf] at he
    have h1 : e ∈ sortDescBy (fun c => c.totalScore)
        (Ladder.cropPerformance v (Ladder.selectSuitableCrops data v)) :=
      List.mem_of_mem_take he
    exact (sortDescBy_perm _ _).mem_iff.mp h1

/-- **C9.** The ladder `getFertilizerRecommendations` always returns 1–3
strings: with at least one high-rated record matching the crop and soil
substring filters it returns up to 3 distinct irrigation types drawn from
those records, with none it returns exactly the fixed three-item default
list; the strict variant by contrast can return the empty list. -/
theorem claim9_fertilizer_recommendations :
    (∀ (data : List AgriculturalRecord) (cropType soilType : String),
      1 ≤ (Ladder.getFertilizerRecommendations data cropType soilType).length ∧
      (Ladder.getFertilizerRecommendations data cropType soilType).length ≤ 3) ∧
    (∀ (data : List AgriculturalRecord) (cropType soilType : String),
      Ladder.successfulRecordsFor data cropType soilType = [] →
      Ladder.getFertilizerRecommendations data cropType soilType =
        ["Organic Compost", "NPK Fertilizer", "Micronutrients"]) ∧
    (∀ (data : List AgriculturalRecord) (cropType soilType : String),
      Ladder.successfulRecordsFor data cropType soilType ≠ [] →
      (Ladder.getFertilizerRecommendations data cropType soilType).Nodup ∧
      ∀ s ∈ Ladder.getFertilizerRecommendations data cropType soilType,
        ∃ r ∈ Ladder.successfulRecordsFor data cropType soilType,
          r.irrigation_type = s) ∧
    Strict.getFertilizerRecommendations [] "rice" "black" = [] := by
  refine ⟨?_, ?_, ?_, by with_unfolding_all decide⟩
  · intro data cropType soilType
    simp only [Ladder.getFertilizerRecommendations]
    by_cases hp : 0 < (firstDedup
        ((Ladder.successfulRecordsFor data cropType soilType).map
          (fun r => r.irrigation_type))).length
    · rw [if_pos hp, List.length_take]
      omega
    · rw [if_neg hp]
      simp
  · intro data cropType soilType h
    simp only [Ladder.getFertilizerRecommendations, h]
    simp [firstDedup]
  · intro data cropType soilType h
    have hne : firstDedup ((Ladder.successfulRecordsFor data cropType soilType).map
        (fun r => r.irrigation_type)) ≠ [] := by
      rw [Ne, firstDedup_eq_nil, List.map_eq_nil_iff]
      exact h
    have hp : 0 < (firstDedup ((Ladder.successfulRecordsFor data cropType soilType).map
        (fun r => r.irrigation_type))).length := List.length_pos.mpr hne
    constructor
    · simp only [Ladder.getFertilizerRecommendations, if_pos hp]
      exact List.Nodup.sublist (List.take_sublist 3 _) (nodup_firstDedup _)
    · intro s hs
      simp only [Ladder.getFertilizerRecommendations, if_pos hp] at hs
      have h1 : s ∈ firstDedup ((Ladder.successfulRecordsFor data cropType soilType).map
          (fun r => r.irrigation_type)) := List.mem_of_mem_take hs
      have h2 := mem_firstDedup.mp h1
      rcases List.mem_map.mp h2 with ⟨r, hr, hreq⟩
      exact ⟨r, hr, hreq⟩

/-! ## Concrete fixtures used by the witness theorems -/

/-- A sample query profile. -/
def sampleVillage : VillageData :=
  { village := "Rampur", latitude := 0, longitude := 0, soil_type := "black",
    annual_rainfall := 100, crops_current := ["rice"], groundwater_depth := 10,
    flood_history := "none" }

/-- A sample crop-dataset record matching `sampleVillage`. -/
def sampleCrop : CropData :=
  { N := 0, P := 0, K := 0, temperature := 25, humidity := 50, ph := 6.5,
    rainfall := 100, label := "rice" }

/-- A sample fertilizer-dataset record matching `sampleVillage`. -/
def sampleFert : FertilizerData :=
  { temperature := 0, humidity := 0, moisture := 0, soilType := "black",
    cropType := "rice", nitrogen := 0, potassium := 0, phosphorous := 0,
    fertilizerName := "NPK" }

/-- A sample agricultural record matching `sampleVillage`. -/
def sampleRecord : AgriculturalRecord :=
  { state := "MH", district := "Pune", village := "Rampur", latitude := 0,
    longitude := 0, year := 2020, season := "kharif", crop := "rice",
    area_hectares := 1, soil_type := "black", soil_ph := 6.5,
    soil_moisture_percent := 30, annual_rainfall_mm := 100,
    avg_temperature_c := 25, climate_risk := "low", drought_occurrence := "no",
    flood_occurrence := "no", irrigation_type := "drip", input_cost_inr := 1000,
    yield_kg_per_hectare := 3500, market_price_inr_per_kg := 20,
    roi_percent := 50, success_rating := 4, farmer_feedback := "good" }

/-- A sample strategy whose single crop is rice. -/
def sampleStrategy : Strategy :=
  { id := "s1", label := "Balanced",
    crops := [{ name := "rice", planting_date := "June-July",
                irrigation_schedule := "Weekly irrigation",
                expected_yield_improvement := "10-20%", risk_factor := "Medium" }],
    total_investment := 100000 }

/-- Witness for C5: a concrete store on which the strict variant returns
`ok 52`, and 52 indeed lies in `[40, 95]` by the theorem. -/
theorem claim5_confidence_score_bounds_witness :
    Strict.calculateConfidenceScore (List.replicate 10 sampleCrop)
        (List.replicate 8 sampleFert) sampleVillage = .ok 52 ∧
    (40 ≤ (52 : ℤ) ∧ (52 : ℤ) ≤ 95) :=
  ⟨by with_unfolding_all decide,
   claim5_confidence_score_bounds.2 (List.replicate 10 sampleCrop)
     (List.replicate 8 sampleFert) sampleVillage 52 (by with_unfolding_all decide)⟩

/-- Witness for C7: the empty store has no matching records and yields the
constant 30; a singleton matching store is nonempty and its rate obeys the
bounds. -/
theorem claim7_historical_success_rate_witness :
    Ladder.strategyMatchingRecords [] sampleStrategy sampleVillage = [] ∧
    Ladder.getHistoricalSuccessRate [] sampleStrategy sampleVillage = 30 ∧
    Ladder.strategyMatchingRecords [sampleRecord] sampleStrategy sampleVillage ≠ [] ∧
    25 ≤ Ladder.getHistoricalSuccessRate [sampleRecord] sampleStrategy sampleVillage :=
  ⟨by with_unfolding_all decide,
   claim7_historical_success_rate.2.2.1 [] sampleStrategy sampleVillage
     (by with_unfolding_all decide),
   by with_unfolding_all decide,
   (claim7_historical_success_rate.1 [sampleRecord] sampleStrategy sampleVillage).1⟩

/-- Witness for C8: at tolerance 200 ≤ 400 on a singleton store the counts
are monotone. -/
theorem claim8_tolerance_monotonicity_witness :
    (200 : ℚ) ≤ 400 ∧
    Ladder.rainfallMatchCount [sampleRecord] 100 200 ≤
      Ladder.rainfallMatchCount [sampleRecord] 100 400 :=
  ⟨by norm_num,
   claim8_tolerance_monotonicity.1 [sampleRecord] 100 200 400 (by norm_num)⟩

/-- Witness for C10: the singleton bucket has nonzero mean rainfall and the
risk label is one of the three values; likewise for the strict variant. -/
theorem claim10_risk_factor_range_witness :
    ([sampleRecord] ≠ ([] : List AgriculturalRecord)) ∧
    listAvg ([sampleRecord].map (fun r => r.annual_rainfall_mm)) ≠ 0 ∧
    (Ladder.assessRiskFactor [sampleRecord] 100 = "Low" ∨
     Ladder.assessRiskFactor [sampleRecord] 100 = "Medium" ∨
     Ladder.assessRiskFactor [sampleRecord] 100 = "High") ∧
    sampleCrop.rainfall ≠ 0 ∧
    (Strict.assessRiskFactor sampleCrop sampleVillage = "Low" ∨
     Strict.assessRiskFactor sampleCrop sampleVillage = "Medium" ∨
     Strict.assessRiskFactor sampleCrop sampleVillage = "High") :=
  ⟨by simp,
   by with_unfolding_all decide,
   claim10_risk_factor_range.2.1 [sampleRecord] 100 (by simp)
     (by with_unfolding_all decide),
   by with_unfolding_all decide,
   claim10_risk_factor_range.2.2 sampleCrop sampleVillage
     (by with_unfolding_all decide)⟩

/-- A small-valued agricultural record matching `sampleVillage`, used where a
whole scorer aggregate must be evaluated. -/
def perfRecord : AgriculturalRecord :=
  { state := "s", district := "d", village := "v", latitude := 0, longitude := 0,
    year := 1, season := "kharif", crop := "rice", area_hectares := 1,
    soil_type := "black", soil_ph := 6, soil_moisture_percent := 1,
    annual_rainfall_mm := 100, avg_temperature_c := 25, climate_risk := "low",
    drought_occurrence := "no", flood_occurrence := "no", irrigation_type := "drip",
    input_cost_inr := 1, yield_kg_per_hectare := 1, market_price_inr_per_kg := 1,
    roi_percent := 1, success_rating := 4, farmer_feedback := "good" }

/-- The single scorer aggregate produced by `[perfRecord]`:
`totalScore = 4×20 + 1×0.5 + 100×0.3 = 110.5`. -/
def samplePerf : Ladder.CropPerf :=
  { crop := "rice", records := [perfRecord], avgYield := 1, avgROI := 1,
    avgRating := 4, rainfallScore := 100, totalScore := 221/2 }

set_option maxRecDepth 2000 in
/-- Witness for C6: on the singleton store the unique aggregate is a member
of the ranking, and the theorem places it among the aggregates. -/
theorem claim6_ladder_scorer_witness :
    samplePerf ∈ Ladder.rankedOf sampleVillage
      (Ladder.selectSuitableCrops [perfRecord] sampleVillage) ∧
    samplePerf ∈ Ladder.cropPerformance sampleVillage
      (Ladder.selectSuitableCrops [perfRecord] sampleVillage) :=
  ⟨by with_unfolding_all decide,
   (claim6_ladder_scorer [perfRecord] sampleVillage).2.2.2 samplePerf
     (by with_unfolding_all decide)⟩

/-- Witness for C9: the empty store matches nothing and yields the default
list; the singleton store matches and yields its distinct irrigation type. -/
theorem claim9_fertilizer_recommendations_witness :
    Ladder.successfulRecordsFor [] "rice" "black" = [] ∧
    Ladder.getFertilizerRecommendations [] "rice" "black" =
      ["Organic Compost", "NPK Fertilizer", "Micronutrients"] ∧
    Ladder.successfulRecordsFor [sampleRecord] "rice" "black" ≠ [] ∧
    (Ladder.getFertilizerRecommendations [sampleRecord] "rice" "black").Nodup :=
  ⟨by with_unfolding_all decide,
   claim9_fertilizer_recommendations.2.1 [] "rice" "black"
     (by with_unfolding_all decide),
   by with_unfolding_all decide,
   (claim9_fertilizer_recommendations.2.2.1 [sampleRecord] "rice" "black"
     (by with_unfolding_all decide)).1⟩

/-- **C2** (code bug in the strict variant's success path).  On a store
whose 3 records all pass the fixed-tolerance filter, `predictOptimalCrops`
does not return recommendations: its success path calls
`getOptimalPlantingDate(crop.label, annual_rainfall)`, passing the numeric
rainfall where the method's signature requires a `RainfallData[]`, so the
engine raises `TypeError: locations.reduce is not a function` instead.  Below
3 matches the declared insufficient-data error is raised as specified. -/
theorem claim2_strict_predict_type_error :
    (Strict.suitableCropsOf (List.replicate 3 sampleCrop) sampleVillage).length = 3 ∧
    Strict.predictOptimalCrops (List.replicate 3 sampleCrop) sampleVillage =
      .error (.typeError "locations.reduce is not a function") ∧
    Strict.predictOptimalCrops [] sampleVillage =
      .error (.insufficientData
        ("Insufficient crop matches found (0 suitable crops). " ++
         "Need minimum 3 matches for reliable recommendations.")) := by
  refine ⟨by with_unfolding_all decide, by with_unfolding_all decide, ?_⟩
  with_unfolding_all decide

/-- A CSV text whose single data row has a non-numeric first field and a
column count matching the header. -/
def badCSVText : String :=
  "N,P,K,temperature,humidity,ph,rainfall,label\nabc,1,2,20,50,6.5,100,rice"

/-- **C3** (counterexample).  Parsing `badCSVText` retains its malformed
row: `parseFloat("abc")` yields `NaN` without throwing, the column count
matches, so the record enters the store with `N = NaN` — a loaded record
with a non-finite numeric field, contradicting the claim that such rows are
dropped. -/
theorem claim3_finite_fields_counterexample :
    Parsing.parseCSV badCSVText Parsing.parseCropRow =
      [{ N := .nan, P := .num 1, K := .num 2, temperature := .num 20,
         humidity := .num 50, ph := .num (13/2), rainfall := .num 100,
         label := "rice" }] ∧
    (Parsing.parseCSV badCSVText Parsing.parseCropRow).any
      (fun r => !r.allFinite) = true :=
  ⟨by with_unfolding_all decide, by with_unfolding_all decide⟩

/-- `parseCropRow` succeeds exactly on rows long enough to contain the label
column; the numeric columns never make it fail. -/
theorem parseCropRow_ok_iff (row : List String) :
    (∃ r, Parsing.parseCropRow row = .ok r) ↔ 8 ≤ row.length := by
  rw [Parsing.parseCropRow]
  cases hg : row.get? 7 with
  | none =>
    have hlen := List.get?_eq_none.mp hg
    simp only [hg]
    constructor
    · rintro ⟨r, hr⟩
      exact Except.noConfusion hr
    · intro h
      omega
  | some x =>
    have hlen : 7 < row.length := by
      by_contra hc
      rw [List.get?_eq_none.mpr (by omega)] at hg
      exact Option.noConfusion hg
    simp only [hg]
    constructor
    · intro
      omega
    · intro
      exact ⟨_, rfl⟩

/-- Length of the `parseCSV` fold: with a wide-enough header every
column-count-matching row contributes one record, whatever its numeric
fields hold; with a header of fewer than 8 columns every row parser call
throws and nothing is retained. -/
theorem parseCSV_foldl_length (n : ℕ) (ls : List String)
    (acc : List Parsing.CropDataParsed) :
    (ls.foldl
      (fun data line =>
        if (line.splitOn ",").length = n then
          Parsing.pushIfParsed data (Parsing.parseCropRow (line.splitOn ","))
        else data)
      acc).length =
    acc.length + (if 8 ≤ n then
      (ls.filter (fun line => decide ((line.splitOn ",").length = n))).length
    else 0) := by
  induction ls generalizing acc with
  | nil => simp
  | cons line ls ih =>
    rw [List.foldl_cons, ih]
    by_cases hrow : (line.splitOn ",").length = n
    · by_cases hn : 8 ≤ n
      · obtain ⟨r, hr⟩ : ∃ r, Parsing.parseCropRow (line.splitOn ",") = .ok r :=
          (parseCropRow_ok_iff _).mpr (by omega)

        simp only [if_pos hrow, hr, Parsing.pushIfParsed, List.filter_cons]
        simp [hrow, hn]
        omega
      · have hnone : (line.splitOn ",").get? 7 = none :=
          List.get?_eq_none.mpr (by omega)
        have herr : Parsing.parseCropRow (line.splitOn ",") = .error () := by
          rw [Parsing.parseCropRow, hnone]
        simp only [if_pos hrow, herr, Parsing.pushIfParsed, List.filter_cons]
        simp [hn]
    · simp only [if_neg hrow, List.filter_cons]
      simp [hrow]

/-- **C3** (amended).  A data row is retained if and only if its column
count matches the header's (the header being wide enough for the label
column); failed numeric parses produce `NaN` fields but never drop a row. -/
theorem claim3_row_retention (csvText : String) :
    (Parsing.parseCSV csvText Parsing.parseCropRow).length =
      (if 8 ≤ ((((csvText.trim.splitOn "\n").headD "").splitOn ",").length) then
        (((csvText.trim.splitOn "\n").drop 1).filter
          (fun line => decide ((line.splitOn ",").length =
            ((((csvText.trim.splitOn "\n").headD "").splitOn ",").length)))).length
      else 0) := by
  simp only [Parsing.parseCSV]
  have h := parseCSV_foldl_length
    ((((csvText.trim.splitOn "\n").headD "").splitOn ",").length)
    ((csvText.trim.splitOn "\n").drop 1) []
  simpa using h

end Gra2
